import Mathlib

/-!
# Verification of the tunnelvision client-side session/streaming protocol

Shallow embedding of the core of `sluijs/tunnelvision`: array validation and
frame construction (`src/tunnelvision/plot.py`, `Axis.imshow` / `Axis._send_view`),
the process supervisor (`src/tunnelvision/server/server.py`, `start`), the
handshake listener (`wait_for_handshake`), message sending (`send_message`)
and port scanning (`_get_first_available_port`).

Conventions: machine bytes are `Nat` values below 256; a numpy array is its
shape, dtype and flat row-major list of element bit patterns; the cooperative
scheduling of `_send_view` is a small-step program whose `await` instruction
blocks until the handshake future is resolved; inbound websocket traffic is
the finite list of messages received before the connection closes.
-/

/-- The numpy element types relevant to the validation in `Axis.imshow`
(the common bool / integer / float / complex scalar dtypes). -/
inductive Dtype
  | int8 | int16 | int32 | int64
  | uint8 | uint16 | uint32 | uint64
  | float16 | float32 | float64
  | bool_ | complex64
deriving DecidableEq

/-- numpy `dtype.itemsize`, in bytes. -/
def itemsize : Dtype → Nat
  | .int8 | .uint8 | .bool_ => 1
  | .int16 | .uint16 | .float16 => 2
  | .int32 | .uint32 | .float32 => 4
  | .int64 | .uint64 | .float64 | .complex64 => 8

/-- numpy `dtype.name`. -/
def dtypeName : Dtype → String
  | .int8 => "int8"
  | .int16 => "int16"
  | .int32 => "int32"
  | .int64 => "int64"
  | .uint8 => "uint8"
  | .uint16 => "uint16"
  | .uint32 => "uint32"
  | .uint64 => "uint64"
  | .float16 => "float16"
  | .float32 => "float32"
  | .float64 => "float64"
  | .bool_ => "bool"
  | .complex64 => "complex64"

/-- numpy dtype kinds (signed integer, unsigned integer, floating point,
boolean, complex). -/
inductive DtypeKind
  | signedInt | unsignedInt | floatKind | booleanKind | complexKind
deriving DecidableEq

/-- The kind of each dtype, as numpy classifies them. -/
def dtypeKind : Dtype → DtypeKind
  | .int8 | .int16 | .int32 | .int64 => .signedInt
  | .uint8 | .uint16 | .uint32 | .uint64 => .unsignedInt
  | .float16 | .float32 | .float64 => .floatKind
  | .bool_ => .booleanKind
  | .complex64 => .complexKind

/-- Width of a dtype in bits. -/
def dtypeBits (d : Dtype) : Nat := 8 * itemsize d

/-- The dtype allow-list of `Axis.imshow`, in source order
(plot.py line 70): `[np.int8, np.int16, np.int32, np.uint8, np.uint16,
np.uint32, np.float32]`. -/
def allowedDtypes : List Dtype :=
  [.int8, .int16, .int32, .uint8, .uint16, .uint32, .float32]

/-- The allow-list the specification describes: signed-integer,
unsigned-integer or floating-point kind of width at most 32 bits.
(Refinement target for the allow-list claim; compare with `allowedDtypes`.) -/
def specAllowedDtype (d : Dtype) : Bool :=
  (dtypeKind d = DtypeKind.signedInt ∨ dtypeKind d = DtypeKind.unsignedInt ∨
    dtypeKind d = DtypeKind.floatKind) ∧ dtypeBits d ≤ 32

/-- A numpy ndarray: shape, dtype and the element bit patterns flattened in
row-major (C) order, as `x.tobytes()` serializes them. -/
structure NpArray where
  shape : List Nat
  dtype : Dtype
  data : List Nat
  data_size : data.length = shape.prod

/-- `x.ndim`. -/
def NpArray.ndim (a : NpArray) : Nat := a.shape.length

/-- Little-endian byte serialization of one element bit pattern into `w`
bytes. -/
def bytesLE : Nat → Nat → List Nat
  | 0, _ => []
  | w + 1, v => (v % 256) :: bytesLE w (v / 256)

/-- `x.tobytes()`: the row-major raw byte buffer of the array. -/
def tobytes (a : NpArray) : List Nat :=
  a.data.flatMap (fun v => bytesLE (itemsize a.dtype) v)

/-- UTF-8 bytes of a string, as Python `str.encode()` produces them. -/
def utf8Bytes (s : String) : List Nat :=
  s.toUTF8.toList.map (fun b => b.toNat)

/-- The JSON header message built by `Axis._send_view` (plot.py lines
148-156): hash token, config and metadata maps, and, when an array is
present, its shape and dtype name. -/
structure HeaderMsg where
  hash : String
  config : List (String × String)
  metadata : List (String × String)
  shape : Option (List Nat)
  dtype : Option String
deriving DecidableEq

/-- One frame on the websocket connection: a JSON text frame or a binary
frame. -/
inductive Frame
  | text (h : HeaderMsg)
  | binary (b : List Nat)
deriving DecidableEq

/-- One instruction of the `_send_view` coroutine: await the handshake
future, send a frame, or close the websocket. -/
inductive SVStep
  | awaitHS
  | send (f : Frame)
  | closeWs
deriving DecidableEq

/-- The header `_send_view` builds for hash/config/metadata and an optional
array (shape and dtype name included only when an array is present). -/
def headerOf (hash : String) (config metadata : List (String × String))
    (x : Option NpArray) : HeaderMsg :=
  { hash := hash, config := config, metadata := metadata,
    shape := x.map (fun a => a.shape),
    dtype := x.map (fun a => dtypeName a.dtype) }

/-- The straight-line body of `Axis._send_view` (plot.py lines 142-165):
await the handshake, send the JSON header, send the binary frame
(hash bytes ++ raw array bytes) when an array is present, close. -/
def sendViewProg (hash : String) (config metadata : List (String × String))
    (x : Option NpArray) : List SVStep :=
  [SVStep.awaitHS, SVStep.send (Frame.text (headerOf hash config metadata x))]
    ++ (match x with
        | some a => [SVStep.send (Frame.binary (utf8Bytes hash ++ tobytes a))]
        | none => []) ++ [SVStep.closeWs]

/-- The frames `_send_view` delivers on a successful run. -/
def viewFrames (hash : String) (config metadata : List (String × String))
    (x : Option NpArray) : List Frame :=
  [Frame.text (headerOf hash config metadata x)]
    ++ (match x with
        | some a => [Frame.binary (utf8Bytes hash ++ tobytes a)]
        | none => [])

/-- Execution state of one `_send_view` coroutine: remaining instructions
and the frames sent on the connection so far. -/
structure ExecState where
  prog : List SVStep
  sent : List Frame
deriving DecidableEq

/-- One cooperative-scheduler step of `_send_view`. The handshake future is
`none` while pending, `some true` when resolved successfully, `some false`
when it failed (the await then raises, the `except` branch of `_send_view`
sends nothing further). An `awaitHS` instruction cannot make progress while
the future is pending. -/
def stepSV (hs : Option Bool) (s : ExecState) : Option ExecState :=
  match s.prog with
  | [] => none
  | SVStep.awaitHS :: rest =>
      match hs with
      | none => none
      | some true => some { prog := rest, sent := s.sent }
      | some false => some { prog := [], sent := s.sent }
  | SVStep.send f :: rest => some { prog := rest, sent := s.sent ++ [f] }
  | SVStep.closeWs :: rest => some { prog := rest, sent := s.sent }

/-- Run up to `n` scheduler steps (stopping when blocked or finished). -/
def runSV (hs : Option Bool) : Nat → ExecState → ExecState
  | 0, s => s
  | n + 1, s =>
      match stepSV hs s with
      | none => s
      | some s2 => runSV hs n s2

/-- The per-axis state `Axis.imshow` consults (plot.py lines 76-80): the
hash token, whether `state.process.poll()` is `None` (server still running),
and the `done` / `cancelled` / `exception` status of the handshake future. -/
structure AxisState where
  hash : String
  processPollNone : Bool
  hsDone : Bool
  hsCancelled : Bool
  hsException : Bool
deriving DecidableEq

/-- The errors `Axis.imshow` can raise, in source terms: `TypeError` for a
disallowed dtype, `ValueError` for wrong rank, `RuntimeError` for a stopped
server or a failed handshake. -/
inductive ImshowError
  | typeErrorDtype
  | valueErrorNdim
  | runtimeServerStopped
  | runtimeHandshakeFailed
deriving DecidableEq

/-- Validation errors in the spec's taxonomy (raised synchronously before
any asynchronous work). -/
def isValidationError : ImshowError → Bool
  | .typeErrorDtype => true
  | .valueErrorNdim => true
  | .runtimeServerStopped => false
  | .runtimeHandshakeFailed => false

/-- `Axis.imshow` (plot.py lines 67-86): dtype check, then rank check, then
server-liveness check, then handshake-failure check; on success it schedules
the `_send_view` task and returns. An `.ok` result carries the scheduled
coroutine. -/
def imshow (ax : AxisState) (x : NpArray)
    (metadata config : List (String × String)) :
    Except ImshowError (List SVStep) :=
  if x.dtype ∉ allowedDtypes then .error .typeErrorDtype
  else if x.ndim ≠ 5 then .error .valueErrorNdim
  else if ¬ ax.processPollNone then .error .runtimeServerStopped
  else if ax.hsDone ∧ (ax.hsCancelled ∨ ax.hsException) then
    .error .runtimeHandshakeFailed
  else .ok (sendViewProg ax.hash config metadata (some x))

/-- Frames reaching the connection from one `imshow` call: none when
validation raised (no task is scheduled), otherwise the frames of a full
drain of the scheduled coroutine under a resolved handshake. -/
def framesOfResult (r : Except ImshowError (List SVStep)) : List Frame :=
  match r with
  | .error _ => []
  | .ok p => (runSV (some true) p.length { prog := p, sent := [] }).sent

/-- Lifecycle events the process supervisor `start` performs on server
processes (server.py lines 42-53): terminate a tracked process, wait for
its exit, spawn a new process. -/
inductive ProcEvent
  | terminateProc (pid : Nat)
  | waitProc (pid : Nat)
  | spawnProc (pid : Nat)
deriving DecidableEq

/-- The ordered process-lifecycle events of one `start(...)` call: when a
process is already tracked in session state it is terminated and waited on
before the new process is spawned; otherwise the new process is just
spawned. -/
def startEvents (tracked : Option Nat) (newPid : Nat) : List ProcEvent :=
  match tracked with
  | some pid => [.terminateProc pid, .waitProc pid, .spawnProc newPid]
  | none => [.spawnProc newPid]

/-- Effect of one lifecycle event on the set of live server processes: a
process stops being counted live only once its exit is observed by `wait`;
`spawn` adds a live process. -/
def applyProcEvent (live : List Nat) : ProcEvent → List Nat
  | .terminateProc _ => live
  | .waitProc pid => live.erase pid
  | .spawnProc pid => pid :: live

/-- `true` when, starting from the given live set, every point of the event
sequence (before, between and after events) has at most one live process. -/
def atMostOneLive (live : List Nat) : List ProcEvent → Bool
  | [] => decide (live.length ≤ 1)
  | e :: rest => decide (live.length ≤ 1) && atMostOneLive (applyProcEvent live e) rest

/-- The startup banner literal `start` looks for on the server's stdout
(server.py line 59). -/
def startupBanner : String := "--- tunnelvision ---"

/-- `as.startsWithSeq bs`: `as` is an initial segment of `bs`. -/
def startsWithSeq : List Char → List Char → Bool
  | [], _ => true
  | _ :: _, [] => false
  | a :: as, b :: bs => a == b && startsWithSeq as bs

/-- `containsSeq needle hay`: Python `needle in hay` substring containment
on character lists. -/
def containsSeq (needle : List Char) : List Char → Bool
  | [] => startsWithSeq needle []
  | c :: rest => startsWithSeq needle (c :: rest) || containsSeq needle rest

/-- Outcome of the readiness phase of `start`: `timedOut` models the
`TimeoutError` raised when `select` reports no readable stdout data within
the configured timeout; `started b` models returning the process handle,
with `b` recording whether the log relay thread was started. -/
inductive StartOutcome
  | timedOut
  | started (logRelay : Bool)
deriving DecidableEq

/-- The readiness phase of `start` (server.py lines 55-67): `firstReady` is
`none` when `select` times out with no stdout data within `config.timeout`,
and `some line` when a first stdout line becomes readable in time.
On a readable line containing the banner, the log relay starts when logging
is configured; in every readable-line case the process handle is returned. -/
def startReadiness (logConfigured : Bool) (firstReady : Option String) :
    StartOutcome :=
  match firstReady with
  | none => .timedOut
  | some line =>
      if containsSeq startupBanner.data line.data then .started logConfigured
      else .started false

/-- The handshake registry `state.handshakes`: token to future, where a
future is `none` while pending and `some b` once resolved with the boolean
`b`. -/
abbrev Registry := List (String × Option Bool)

/-- Dictionary lookup in the registry. -/
def regLookup : Registry → String → Option (Option Bool)
  | [], _ => none
  | (k, v) :: rest, h => if k = h then some v else regLookup rest h

/-- Dictionary write in the registry (adds the key when absent). -/
def regSet : Registry → String → Option Bool → Registry
  | [], k, v => [(k, v)]
  | (k0, v0) :: rest, k, v =>
      if k0 = k then (k0, v) :: rest else (k0, v0) :: regSet rest k v

/-- One inbound websocket message as the listener sees it: `notJson` for a
message on which `json.loads` fails, otherwise the parsed object's `hash`
and `connected` fields (present or absent). -/
inductive WsMsg
  | notJson
  | json (hash : Option String) (connected : Option Bool)
deriving DecidableEq

/-- `true` for messages carrying both a token field and a connected
boolean. -/
def isWellFormed : WsMsg → Bool
  | .json (some _) (some _) => true
  | _ => false

/-- One iteration of the `wait_for_handshake` listener body (server.py
lines 104-116): a message with both fields registers a fresh future for an
unknown token and then resolves it; `set_result` on an already-resolved
future raises `InvalidStateError`, which the bare `except` swallows, leaving
the registry unchanged; every other error (malformed JSON, missing field)
is likewise swallowed. -/
def wsStep (r : Registry) : WsMsg → Registry
  | .notJson => r
  | .json none _ => r
  | .json (some _) none => r
  | .json (some h) (some c) =>
      match regLookup r h with
      | none => regSet r h (some c)
      | some none => regSet r h (some c)
      | some (some _) => r

/-- The listener loop over the finite list of messages received before the
shared connection closes; the loop ends exactly at the close. -/
def wsLoop (r : Registry) : List WsMsg → Registry
  | [] => r
  | m :: ms => wsLoop (wsStep r m) ms

/-- The shared websocket connection of the session state; `isOpen` models
`state.websocket.open`. -/
structure Websocket where
  isOpen : Bool
deriving DecidableEq

/-- The error of `send_message`: the `RuntimeError` raised when the
websocket is absent or not open. -/
inductive SendError
  | notOpen
deriving DecidableEq

/-- `send_message` (server.py lines 119-125): when `state.websocket` is a
connected client protocol and open, the frame is sent on the shared
connection (appended to its send log); otherwise `NotOpen` is raised. -/
def send_message (ws : Option Websocket) (sentLog : List Frame) (f : Frame) :
    Except SendError (List Frame) :=
  match ws with
  | some w => if w.isOpen then .ok (sentLog ++ [f]) else .error .notOpen
  | none => .error .notOpen

/-- The error of `_get_first_available_port`: the `OSError` raised when all
ports in the range are in use. -/
inductive PortError
  | allInUse
deriving DecidableEq

/-- The scan loop of `_get_first_available_port` over `n` consecutive ports
starting at `p`: return the first port that binds, else raise. `canBind`
models whether binding a socket to the configured hostname on that port
succeeds. -/
def portScan (canBind : Nat → Bool) : Nat → Nat → Except PortError Nat
  | _, 0 => .error .allInUse
  | p, n + 1 => if canBind p then .ok p else portScan canBind (p + 1) n

/-- `_get_first_available_port(start, end)` (server.py lines 157-178):
iterate `range(start, end)`, return the first bindable port, raise `OSError`
when none binds. -/
def get_first_available_port (canBind : Nat → Bool) (s e : Nat) :
    Except PortError Nat :=
  portScan canBind s (e - s)

/-- Concrete axis fixture: healthy server, pending handshake. -/
def axOk : AxisState :=
  { hash := "abc123", processPollNone := true, hsDone := false,
    hsCancelled := false, hsException := false }

/-- Concrete valid 5-axis uint8 array. -/
def arrOk : NpArray :=
  { shape := [1, 1, 2, 2, 1], dtype := .uint8, data := [1, 2, 3, 4],
    data_size := by decide }

/-- Concrete array with both a disallowed dtype and wrong rank. -/
def arrBadBoth : NpArray :=
  { shape := [2, 2], dtype := .float64, data := [0, 0, 0, 0],
    data_size := by decide }

/-- Concrete 5-axis float16 array (float kind, 16 bits). -/
def arrF16 : NpArray :=
  { shape := [1, 1, 1, 1, 1], dtype := .float16, data := [0],
    data_size := by decide }

/-- Concrete rank-3 array with an allowed dtype. -/
def arrRank3 : NpArray :=
  { shape := [1, 2, 2], dtype := .uint8, data := [0, 0, 0, 0],
    data_size := by decide }

/-- Port-bindability fixture: ports from 2 upward bind. -/
def canBind0 (p : Nat) : Bool := decide (2 ≤ p)

/-- C1: for every valid array with exactly 5 axes and an allowed element
type, a single enqueue that fully drains produces exactly one JSON header
frame immediately followed by exactly one binary frame, where the header's
shape equals the array's axis lengths, its dtype equals the element-type
name, and the binary frame is the session token's bytes concatenated with
the array's raw row-major byte buffer. -/
theorem c1_enqueue_frames (ax : AxisState) (x : NpArray)
    (md cfg : List (String × String))
    (hd : x.dtype ∈ allowedDtypes) (hr : x.ndim = 5)
    (hp : ax.processPollNone = true)
    (hh : ¬(ax.hsDone ∧ (ax.hsCancelled ∨ ax.hsException))) :
    imshow ax x md cfg = .ok (sendViewProg ax.hash cfg md (some x)) ∧
    framesOfResult (imshow ax x md cfg) =
      [Frame.text (headerOf ax.hash cfg md (some x)),
        Frame.binary (utf8Bytes ax.hash ++ tobytes x)] ∧
    (headerOf ax.hash cfg md (some x)).shape = some x.shape ∧
    (headerOf ax.hash cfg md (some x)).dtype = some (dtypeName x.dtype) := by
  have hok : imshow ax x md cfg = .ok (sendViewProg ax.hash cfg md (some x)) := by
    simp [imshow, hd, hr, hp, hh]
  refine ⟨hok, ?_, rfl, rfl⟩
  rw [hok]
  simp [framesOfResult, sendViewProg, runSV, stepSV]

/-- Witness for C1 at a concrete 5-axis uint8 array. -/
theorem c1_witness :
    imshow axOk arrOk [] [] = .ok (sendViewProg axOk.hash [] [] (some arrOk)) ∧
    framesOfResult (imshow axOk arrOk [] []) =
      [Frame.text (headerOf axOk.hash [] [] (some arrOk)),
        Frame.binary (utf8Bytes axOk.hash ++ tobytes arrOk)] ∧
    (headerOf axOk.hash [] [] (some arrOk)).shape = some arrOk.shape ∧
    (headerOf axOk.hash [] [] (some arrOk)).dtype = some (dtypeName arrOk.dtype) :=
  c1_enqueue_frames axOk arrOk [] [] (by decide) (by decide) (by decide)
    (by decide)

/-- C2: the `_send_view` coroutine begins with the handshake await; while
the handshake future is pending no frame is sent no matter how many
scheduler steps run, and once the handshake resolves a full run sends
exactly the enqueued operation's frames. -/
theorem c2_no_frame_before_handshake (hash : String)
    (cfg md : List (String × String)) (x : Option NpArray) (n : Nat) :
    (sendViewProg hash cfg md x).head? = some SVStep.awaitHS ∧
    (runSV none n { prog := sendViewProg hash cfg md x, sent := [] }).sent = [] ∧
    (runSV (some true) (sendViewProg hash cfg md x).length
        { prog := sendViewProg hash cfg md x, sent := [] }).sent =
      viewFrames hash cfg md x := by
  refine ⟨rfl, ?_, ?_⟩
  · cases n with
    | zero => rfl
    | succ k => simp [runSV, stepSV, sendViewProg]
  · cases x with
    | none => simp [sendViewProg, viewFrames, runSV, stepSV]
    | some a => simp [sendViewProg, viewFrames, runSV, stepSV]

/-- C3: a `start` call with a tracked process performs terminate, then
wait-for-exit, then spawn, in that order; along both `start` paths at most
one server process is live at every point. -/
theorem c3_single_live_server (pid newPid : Nat) :
    startEvents (some pid) newPid =
      [ProcEvent.terminateProc pid, ProcEvent.waitProc pid,
        ProcEvent.spawnProc newPid] ∧
    atMostOneLive [pid] (startEvents (some pid) newPid) = true ∧
    atMostOneLive [] (startEvents none newPid) = true := by
  refine ⟨rfl, ?_, ?_⟩ <;> simp [startEvents, atMostOneLive, applyProcEvent]

/-- C4 counterexample: a stdout line readable within the timeout that does
not contain the startup banner still makes `start` return the process
handle — it does not raise, so "fails iff the banner line does not appear
within the timeout" is false on the code. -/
theorem c4_counterexample :
    containsSeq startupBanner.data ("error: address already in use").data
        = false ∧
      startReadiness true (some "error: address already in use") =
        StartOutcome.started false := by
  constructor <;> decide

/-- C4 amended: `start` raises its timeout error iff no stdout data becomes
readable within the configured timeout; whenever a line is read it returns
the process handle, the banner only deciding whether the log relay
starts. -/
theorem c4_timeout_iff_no_output (lc : Bool) (fr : Option String) :
    (startReadiness lc fr = StartOutcome.timedOut ↔ fr = none) ∧
    (∀ line, fr = some line →
      startReadiness lc fr =
        StartOutcome.started (containsSeq startupBanner.data line.data && lc)) := by
  constructor
  · cases fr with
    | none => simp [startReadiness]
    | some line =>
        simp only [startReadiness]
        constructor
        · intro h
          by_cases hb : containsSeq startupBanner.data line.data = true <;>
            simp [hb] at h
        · intro h; cases h
  · intro line h
    subst h
    simp only [startReadiness]
    by_cases hb : containsSeq startupBanner.data line.data = true
    · simp [hb]
    · rw [Bool.not_eq_true] at hb
      simp [hb]

/-- Witness for C4's amended statement at a concrete non-banner line. -/
theorem c4_witness :
    startReadiness true (some "server listening") =
      StartOutcome.started
        (containsSeq startupBanner.data ("server listening").data && true) :=
  (c4_timeout_iff_no_output true (some "server listening")).2
    "server listening" rfl

/-- C5: for every array whose rank is not 5, `imshow` fails synchronously
with a validation error (TypeError or ValueError, both in the spec's
`ValidationError` taxonomy) and no frame is produced on the connection. -/
theorem c5_wrong_rank_validation (ax : AxisState) (x : NpArray)
    (md cfg : List (String × String)) (hr : x.ndim ≠ 5) :
    (∃ e, imshow ax x md cfg = .error e ∧ isValidationError e = true) ∧
      framesOfResult (imshow ax x md cfg) = [] := by
  by_cases hd : x.dtype ∈ allowedDtypes
  · have hok : imshow ax x md cfg = .error ImshowError.valueErrorNdim := by
      simp [imshow, hd, hr]
    exact ⟨⟨ImshowError.valueErrorNdim, hok, rfl⟩, by rw [hok]; rfl⟩
  · have hok : imshow ax x md cfg = .error ImshowError.typeErrorDtype := by
      simp [imshow, hd]
    exact ⟨⟨ImshowError.typeErrorDtype, hok, rfl⟩, by rw [hok]; rfl⟩

/-- Witness for C5 at a concrete rank-3 array with an allowed dtype. -/
theorem c5_witness :
    (∃ e, imshow axOk arrRank3 [] [] = .error e ∧ isValidationError e = true) ∧
      framesOfResult (imshow axOk arrRank3 [] []) = [] :=
  c5_wrong_rank_validation axOk arrRank3 [] [] (by decide)

/-- C6 counterexample: `float16` is a floating-point kind of width 16 ≤ 32
bits, so the claim says it is accepted, but the allow-list of `imshow`
rejects it with the dtype TypeError. -/
theorem c6_counterexample :
    specAllowedDtype Dtype.float16 = true ∧
      Dtype.float16 ∉ allowedDtypes ∧
      imshow axOk arrF16 [] [] = .error ImshowError.typeErrorDtype := by
  refine ⟨by decide, by decide, by rfl⟩

/-- C6 amended: `imshow` accepts exactly the signed and unsigned integer
kinds of width at most 32 bits together with the floating-point kind of
width exactly 32 bits (so `float16` is rejected); every dtype outside that
set fails with the dtype TypeError. -/
theorem c6_dtype_allowlist (ax : AxisState) (x : NpArray)
    (md cfg : List (String × String)) :
    (∀ d : Dtype, d ∈ allowedDtypes ↔
      ((dtypeKind d = DtypeKind.signedInt ∨ dtypeKind d = DtypeKind.unsignedInt) ∧
          dtypeBits d ≤ 32) ∨
        (dtypeKind d = DtypeKind.floatKind ∧ dtypeBits d = 32)) ∧
    (x.dtype ∉ allowedDtypes →
      imshow ax x md cfg = .error ImshowError.typeErrorDtype) := by
  constructor
  · intro d; cases d <;> decide
  · intro hd; simp [imshow, hd]

/-- Witness for C6's amended statement at the concrete float16 array. -/
theorem c6_witness :
    imshow axOk arrF16 [] [] = .error ImshowError.typeErrorDtype :=
  (c6_dtype_allowlist axOk arrF16 [] []).2 (by decide)

/-- The registry write of `wsStep` is observable by lookup. -/
theorem regLookup_regSet (r : Registry) (h : String) (v : Option Bool) :
    regLookup (regSet r h v) h = some v := by
  induction r with
  | nil => simp [regSet, regLookup]
  | cons kv rest ih =>
      obtain ⟨k0, v0⟩ := kv
      by_cases hk : k0 = h
      · subst hk; simp [regSet, regLookup]
      · simp [regSet, regLookup, hk, ih]

/-- C7: a message carrying both a token field and a connected boolean
resolves that token's future (registering a fresh future first when the
token is unknown, so late resolution is not lost); resolving an
already-resolved future raises and is swallowed, leaving the registry
unchanged; malformed messages change nothing and never terminate the loop,
which steps through every message received before the connection closes. -/
theorem c7_handshake_listener (r : Registry) (h : String) (c : Bool)
    (m : WsMsg) (ms : List WsMsg) :
    (regLookup r h = none →
      regLookup (wsStep r (WsMsg.json (some h) (some c))) h = some (some c)) ∧
    (regLookup r h = some none →
      regLookup (wsStep r (WsMsg.json (some h) (some c))) h = some (some c)) ∧
    (∀ b, regLookup r h = some (some b) →
      wsStep r (WsMsg.json (some h) (some c)) = r) ∧
    (isWellFormed m = false →
      wsStep r m = r ∧ wsLoop r (m :: ms) = wsLoop r ms) ∧
    wsLoop r (m :: ms) = wsLoop (wsStep r m) ms := by
  refine ⟨?_, ?_, ?_, ?_, rfl⟩
  · intro hl; simp [wsStep, hl, regLookup_regSet]
  · intro hl; simp [wsStep, hl, regLookup_regSet]
  · intro b hl; simp [wsStep, hl]
  · intro hm
    have hstep : wsStep r m = r := by
      cases m with
      | notJson => rfl
      | json ho co =>
          cases ho with
          | none => rfl
          | some h0 =>
              cases co with
              | none => rfl
              | some c0 => simp [isWellFormed] at hm
    exact ⟨hstep, by rw [wsLoop, hstep]⟩

/-- Witness for C7: a fresh token's future is registered and resolved, and a
malformed message is a no-op that keeps the loop running. -/
theorem c7_witness :
    (regLookup (wsStep [] (WsMsg.json (some "abc123") (some true))) "abc123" =
      some (some true)) ∧
    (wsStep [] WsMsg.notJson = [] ∧
      wsLoop [] (WsMsg.notJson :: []) = wsLoop [] []) :=
  ⟨(c7_handshake_listener [] "abc123" true WsMsg.notJson []).1 rfl,
    (c7_handshake_listener [] "abc123" true WsMsg.notJson []).2.2.2.1 rfl⟩

/-- C8: `send_message` fails with the NotOpen error exactly when the shared
websocket is absent or not open, and otherwise delivers the given frame on
the shared connection. -/
theorem c8_send_message_not_open_iff (ws : Option Websocket)
    (sentLog : List Frame) (f : Frame) :
    (send_message ws sentLog f = .error SendError.notOpen ↔
      ws = none ∨ ws = some { isOpen := false }) ∧
    (∀ w, ws = some w → w.isOpen = true →
      send_message ws sentLog f = .ok (sentLog ++ [f])) := by
  constructor
  · cases ws with
    | none => simp [send_message]
    | some w =>
        obtain ⟨b⟩ := w
        cases b <;> simp [send_message]
  · rintro w rfl hw
    simp [send_message, hw]

/-- Witness for C8: a frame is delivered on an open connection. -/
theorem c8_witness :
    send_message (some { isOpen := true }) [] (Frame.binary [1, 2]) =
      .ok ([] ++ [Frame.binary [1, 2]]) :=
  (c8_send_message_not_open_iff (some { isOpen := true }) []
    (Frame.binary [1, 2])).2 { isOpen := true } rfl rfl

/-- A successful port scan returns the smallest bindable port of the
scanned window. -/
theorem portScan_ok (canBind : Nat → Bool) :
    ∀ (n p0 p : Nat), portScan canBind p0 n = .ok p →
      p0 ≤ p ∧ p < p0 + n ∧ canBind p = true ∧
        ∀ q, p0 ≤ q → q < p → canBind q = false := by
  intro n
  induction n with
  | zero => intro p0 p hp; simp [portScan] at hp
  | succ k ih =>
      intro p0 p hp
      by_cases hb : canBind p0 = true
      · rw [portScan, if_pos hb] at hp
        obtain rfl : p0 = p := by simpa using hp
        exact ⟨le_refl _, by omega, hb, fun q hq1 hq2 => absurd hq1 (by omega)⟩
      · rw [portScan, if_neg hb] at hp
        rw [Bool.not_eq_true] at hb
        obtain ⟨h1, h2, h3, h4⟩ := ih (p0 + 1) p hp
        refine ⟨by omega, by omega, h3, ?_⟩
        intro q hq1 hq2
        rcases Nat.eq_or_lt_of_le hq1 with h | h
        · rw [← h]; exact hb
        · exact h4 q h hq2

/-- The port scan raises exactly when no port of the scanned window
binds. -/
theorem portScan_err (canBind : Nat → Bool) :
    ∀ (n p0 : Nat), portScan canBind p0 n = .error PortError.allInUse ↔
      ∀ p, p0 ≤ p → p < p0 + n → canBind p = false := by
  intro n
  induction n with
  | zero =>
      intro p0
      constructor
      · intro _ p h1 h2; omega
      · intro _; rfl
  | succ k ih =>
      intro p0
      by_cases hb : canBind p0 = true
      · rw [portScan, if_pos hb]
        constructor
        · intro hp; simp at hp
        · intro hall
          have hfalse := hall p0 (le_refl p0) (by omega)
          rw [hfalse] at hb
          cases hb
      · rw [portScan, if_neg hb, ih (p0 + 1)]
        rw [Bool.not_eq_true] at hb
        constructor
        · intro hall p h1 h2
          rcases Nat.eq_or_lt_of_le h1 with h | h
          · rw [← h]; exact hb
          · exact hall p h (by omega)
        · intro hall p h1 h2
          exact hall p (by omega) (by omega)

/-- C9: for `start < end`, `_get_first_available_port` either returns the
smallest bindable port in the half-open range or raises `OSError` exactly
when no port of the range binds; a returned port is never outside the
range. -/
theorem c9_first_available_port (canBind : Nat → Bool) (s e : Nat)
    (hse : s < e) :
    (∀ p, get_first_available_port canBind s e = .ok p →
      s ≤ p ∧ p < e ∧ canBind p = true ∧
        ∀ q, s ≤ q → q < p → canBind q = false) ∧
    (get_first_available_port canBind s e = .error PortError.allInUse ↔
      ∀ p, s ≤ p → p < e → canBind p = false) := by
  constructor
  · intro p hp
    obtain ⟨h1, h2, h3, h4⟩ := portScan_ok canBind (e - s) s p hp
    exact ⟨h1, by omega, h3, h4⟩
  · rw [get_first_available_port, portScan_err]
    constructor
    · intro hall p h1 h2; exact hall p h1 (by omega)
    · intro hall p h1 h2; exact hall p h1 (by omega)

/-- Witness for C9: the scan over [1, 4) with ports from 2 upward bindable
returns 2, so 2 binds and 1 does not. -/
theorem c9_witness : canBind0 2 = true ∧ canBind0 1 = false :=
  ⟨((c9_first_available_port canBind0 1 4 (by decide)).1 2
      (by rfl)).2.2.1,
    ((c9_first_available_port canBind0 1 4 (by decide)).1 2
      (by rfl)).2.2.2 1 (by decide) (by decide)⟩

/-- C10: the dtype check precedes the rank check — an array with both a
disallowed dtype and a rank other than 5 raises the dtype TypeError, not
the rank ValueError. -/
theorem c10_dtype_check_precedes_rank (ax : AxisState) (x : NpArray)
    (md cfg : List (String × String))
    (hd : x.dtype ∉ allowedDtypes) (_hr : x.ndim ≠ 5) :
    imshow ax x md cfg = .error ImshowError.typeErrorDtype := by
  simp [imshow, hd]

/-- Witness for C10 at a concrete rank-2 float64 array. -/
theorem c10_witness :
    imshow axOk arrBadBoth [] [] = .error ImshowError.typeErrorDtype :=
  c10_dtype_check_precedes_rank axOk arrBadBoth [] [] (by decide) (by decide)
